import Mathlib

/-!
Shallow embedding of `pythonanywhere_core/webapp.py` (class `Webapp`) and
`pythonanywhere_core/resources.py` (class `CPU`).

Modelling conventions:
* An HTTP response (the object returned by the external collaborator
  `call_api`) is a `Response β`: its `ok` flag, numeric `status_code`,
  `repr` (the string produced by interpolating `{response}` into an
  f-string), `text` body, and `jsonBody` — `some b` when `response.json()`
  parses to a value of shape `β`, `none` when the body is not JSON
  (Python would raise a `JSONDecodeError`).  JSON objects with string
  values are modelled as association lists `List (String × String)`.
* Python exceptions become the `Except` monad with error type `ApiError`:
  `PythonAnywhereApiException`, and the builtin `KeyError` /
  `JSONDecodeError` / `ValueError` that the code can also raise.
* Python string primitives (`startswith`, slicing, `split`, `int`,
  `textwrap.dedent`) are given explicit char-list based models
  (`py_startswith`, `py_drop`, `py_split_dot`, `pyInt`, `py_dedent`).
* Methods that print (via `snakesay`) and return normally are modelled by
  distinguished success values (e.g. `ReloadOutcome.cname_warning_printed`).
* `call_api` itself is external; each method takes the response(s) of the
  call(s) it makes as arguments, and methods whose request targets matter
  to the specification also return the `(method, url)` pairs they issue.
  Request payloads (form data / json bodies) are not modelled.
-/

/-- Python exceptions that the embedded code can raise. -/
inductive ApiError where
  | pythonAnywhereApiException (msg : String)
  | jsonDecodeError
  | keyError (key : String)
  | valueError (arg : String)
  deriving DecidableEq

/-- An HTTP response as seen through the `call_api` collaborator contract:
`ok` boolean, numeric status code, `repr` (what `{response}` interpolates to),
body `text`, and the parsed JSON body (`none` when parsing would fail). -/
structure Response (β : Type) where
  ok : Bool
  status_code : Int
  repr : String
  text : String
  jsonBody : Option β
  deriving DecidableEq

/-- An element of the JSON list returned by the files `tree` endpoint:
either a string or some non-string JSON value (the code checks
`type(file_name) == str`). -/
inductive TreeEntry where
  | str (s : String)
  | nonStr
  deriving DecidableEq

/-- Python `s.startswith(pre)`. -/
def py_startswith (s pre : String) : Bool :=
  pre.data.isPrefixOf s.data

/-- Python `len(s)`. -/
def py_len (s : String) : Nat :=
  s.data.length

/-- Python `s[n:]`. -/
def py_drop (s : String) (n : Nat) : String :=
  ⟨s.data.drop n⟩

/-- Helper for Python `str.split(sep)` (single-character separator). -/
def split_char_aux (sep : Char) : List Char → List Char → List (List Char)
  | [], acc => [acc.reverse]
  | c :: cs, acc =>
    if c == sep then acc.reverse :: split_char_aux sep cs []
    else split_char_aux sep cs (c :: acc)

/-- Python `s.split(".")`. -/
def py_split_dot (s : String) : List String :=
  (split_char_aux '.' s.data []).map String.mk

/-- Python `int(s)` for `str` arguments, returning `none` where Python raises
`ValueError`.  Models optional surrounding whitespace and an optional sign
followed by decimal digits (digit-group underscores are not modelled). -/
def pyInt (s : String) : Option Int :=
  let t := ((s.data.dropWhile Char.isWhitespace).reverse.dropWhile Char.isWhitespace).reverse
  match t with
  | [] => none
  | c :: rest =>
    let digits := if c == '-' || c == '+' then rest else c :: rest
    if digits ≠ [] ∧ digits.all Char.isDigit then
      let n : Nat := digits.foldl (fun acc ch => acc * 10 + (ch.toNat - 48)) 0
      some (if c == '-' then -(n : Int) else (n : Int))
    else none

/-- True exactly on lines consisting solely of spaces and tabs (Python
`^[ \t]+$` on a nonempty line, extended to the empty line where stripping
is a no-op anyway). -/
def ws_only (l : List Char) : Bool :=
  l.all (fun c => c == ' ' || c == '\t')

/-- Leading whitespace of a line, as in `textwrap.dedent`'s margin regex. -/
def leading_ws (l : List Char) : List Char :=
  l.takeWhile (fun c => c == ' ' || c == '\t')

/-- Longest common prefix of two char lists (the margin-merging step of
`textwrap.dedent`). -/
def common_pre : List Char → List Char → List Char
  | a :: as, b :: bs => if a == b then a :: common_pre as bs else []
  | _, _ => []

/-- Python `textwrap.dedent`: blank out whitespace-only lines, compute the
common leading whitespace margin of the remaining nonempty lines, and strip
that margin from the start of every line that carries it. -/
def py_dedent (s : String) : String :=
  let lines := (split_char_aux '\n' s.data []).map (fun l => if ws_only l then [] else l)
  let margins := (lines.filter (fun l => l ≠ [])).map leading_ws
  let margin := match margins with
    | [] => []
    | m :: ms => ms.foldl common_pre m
  let stripped := lines.map (fun l => if margin.isPrefixOf l then l.drop margin.length else l)
  ⟨List.intercalate ['\n'] stripped⟩

namespace CPU

/-- Error message of `CPU.get_cpu_usage`:
`f"GET to {self.base_url} failed, got {response}:{response.text}"`. -/
def get_cpu_usage_fail_msg (base_url rp tx : String) : String :=
  "GET to " ++ base_url ++ " failed, got " ++ rp ++ ":" ++ tx

/-- `CPU.get_cpu_usage`: GET the cpu endpoint, raise on `not response.ok`,
otherwise return the parsed JSON body. -/
def get_cpu_usage {β : Type} (base_url : String) (r : Response β) : Except ApiError β :=
  if !r.ok then
    .error (.pythonAnywhereApiException (get_cpu_usage_fail_msg base_url r.repr r.text))
  else
    match r.jsonBody with
    | none => .error .jsonDecodeError
    | some b => .ok b

end CPU

namespace Webapp

/-- `self.domain_url = f"{self.webapps_url}{self.domain}/"`. -/
def domain_url (webapps_url domain : String) : String :=
  webapps_url ++ domain ++ "/"

/-- The log categories recognised by `get_log_info`
(`log_types = ["access", "error", "server"]`). -/
def log_types : List String := ["access", "error", "server"]

/-- The filter prefix of `get_log_info`:
`log_prefix = f"/var/log/{self.domain}."`. -/
def log_pre (domain : String) : String :=
  "/var/log/" ++ domain ++ "."

/-- Error message of `get_log_info` on a non-OK listing response. -/
def get_log_info_fail_msg (rp tx : String) : String :=
  "GET log files info via API failed, got " ++ rp ++ ":" ++ tx

/-- The accumulator dictionary of `get_log_info`:
`logs = {"access": [], "error": [], "server": []}`. -/
structure Logs where
  access : List Int
  error : List Int
  server : List Int
  deriving DecidableEq

/-- `logs[log_type].append(log_index)` for a `log_type` drawn from
`log_types`. -/
def Logs.push (logs : Logs) (lt : String) (i : Int) : Logs :=
  if lt = "access" then { logs with access := logs.access ++ [i] }
  else if lt = "error" then { logs with error := logs.error ++ [i] }
  else if lt = "server" then { logs with server := logs.server ++ [i] }
  else logs

/-- One iteration of the `get_log_info` loop body: decide whether a listing
entry contributes a `(log_type, log_index)` pair, is skipped (`none`), or
makes the loop raise (`ValueError` from `int(log[-2])`). -/
def log_entry (domain : String) (e : TreeEntry) : Except ApiError (Option (String × Int)) :=
  match e with
  | .nonStr => .ok none
  | .str file_name =>
    if py_startswith file_name (log_pre domain) then
      let log := py_split_dot (py_drop file_name (py_len (log_pre domain)))
      if log_types.contains (log.getD 0 "") then
        if log.getLastD "" = "log" then .ok (some (log.getD 0 "", 0))
        else if log.getLastD "" = "1" then .ok (some (log.getD 0 "", 1))
        else if log.getLastD "" = "gz" then
          match pyInt (log.reverse.getD 1 "") with
          | some n => .ok (some (log.getD 0 "", n))
          | none => .error (.valueError (log.reverse.getD 1 ""))
        else .ok none
      else .ok none
    else .ok none

/-- The `for file_name in file_list` loop of `get_log_info`. -/
def get_log_info_loop (domain : String) : List TreeEntry → Logs → Except ApiError Logs
  | [], logs => .ok logs
  | e :: rest, logs =>
    match log_entry domain e with
    | .error err => .error err
    | .ok none => get_log_info_loop domain rest logs
    | .ok (some (lt, i)) => get_log_info_loop domain rest (logs.push lt i)

/-- `Webapp.get_log_info`: GET the `tree/?path=/var/log/` listing, raise the
API error on a non-OK response, then fold the filename-classification loop
over the returned list. -/
def get_log_info (domain : String) (r : Response (List TreeEntry)) : Except ApiError Logs :=
  if !r.ok then
    .error (.pythonAnywhereApiException (get_log_info_fail_msg r.repr r.text))
  else
    match r.jsonBody with
    | none => .error .jsonDecodeError
    | some file_list => get_log_info_loop domain file_list ⟨[], [], []⟩

/-- Error message of `Webapp.reload`:
`f"POST to reload webapp via API failed, got {response}:{response.text}"`. -/
def reload_fail_msg (rp tx : String) : String :=
  "POST to reload webapp via API failed, got " ++ rp ++ ":" ++ tx

/-- How a non-raising `reload` call ended: a plain reload, or the
`cname_error` path that prints a snakesay warning and returns. -/
inductive ReloadOutcome where
  | reloaded
  | cname_warning_printed
  deriving DecidableEq

/-- `Webapp.reload`: POST to the reload sub-resource.  On a non-OK response,
a 409 whose JSON body maps `"error"` to `"cname_error"` prints a warning and
returns; evaluating `response.json()["error"]` can itself raise
(`JSONDecodeError` on a non-JSON body, `KeyError` on a missing key); every
other non-OK response raises the API exception. -/
def reload (r : Response (List (String × String))) : Except ApiError ReloadOutcome :=
  if r.ok then .ok .reloaded
  else
    if r.status_code = 409 then
      match r.jsonBody with
      | none => .error .jsonDecodeError
      | some kvs =>
        match kvs.lookup "error" with
        | none => .error (.keyError "error")
        | some v =>
          if v = "cname_error" then .ok .cname_warning_printed
          else .error (.pythonAnywhereApiException (reload_fail_msg r.repr r.text))
    else .error (.pythonAnywhereApiException (reload_fail_msg r.repr r.text))

/-- The archive suffix computed by `Webapp.delete_log`:
`".1"` when `index == 1`, `f".{index}.gz"` when `index > 1`, else `""`. -/
def delete_log_suffix (index : Int) : String :=
  if index = 1 then ".1"
  else if index > 1 then "." ++ toString index ++ ".gz"
  else ""

/-- The URL that `Webapp.delete_log` DELETEs:
`f"{self.files_url}path/var/log/{self.domain}.{log_type}.log"` followed by
the archive suffix and a trailing slash. -/
def delete_log_url (files_url domain log_type : String) (index : Int) : String :=
  files_url ++ "path/var/log/" ++ domain ++ "." ++ log_type ++ ".log" ++ delete_log_suffix index ++ "/"

/-- Error message of `Webapp.delete_log`. -/
def delete_log_fail_msg (rp tx : String) : String :=
  "DELETE log file via API failed, got " ++ rp ++ ":" ++ tx

/-- `Webapp.delete_log`: DELETE the suffixed log-file path, raising the API
exception on a non-OK response.  Returns the issued request alongside. -/
def delete_log {β : Type} (files_url domain log_type : String) (index : Int)
    (r : Response β) : (String × String) × Except ApiError Unit :=
  (("delete", delete_log_url files_url domain log_type index),
   if !r.ok then .error (.pythonAnywhereApiException (delete_log_fail_msg r.repr r.text))
   else .ok ())

/-- Error message of `Webapp.get`:
`f"GET webapp for {self.domain} via API failed, got {response}:{response.text}"`. -/
def get_fail_msg (domain rp tx : String) : String :=
  "GET webapp for " ++ domain ++ " via API failed, got " ++ rp ++ ":" ++ tx

/-- `Webapp.get`: GET the webapp's own resource, raise on non-OK, return the
parsed JSON body. -/
def get {β : Type} (domain : String) (r : Response β) : Except ApiError β :=
  if !r.ok then .error (.pythonAnywhereApiException (get_fail_msg domain r.repr r.text))
  else
    match r.jsonBody with
    | none => .error .jsonDecodeError
    | some b => .ok b

/-- Error message of `Webapp.patch`. -/
def patch_fail_msg (domain rp tx : String) : String :=
  "PATCH webapp for " ++ domain ++ " via API failed, got " ++ rp ++ ":" ++ tx

/-- `Webapp.patch`: PATCH caller-supplied fields, raise on non-OK, return the
parsed JSON body. -/
def patch {β : Type} (domain : String) (r : Response β) : Except ApiError β :=
  if !r.ok then .error (.pythonAnywhereApiException (patch_fail_msg domain r.repr r.text))
  else
    match r.jsonBody with
    | none => .error .jsonDecodeError
    | some b => .ok b

/-- Error message of `Webapp.list_webapps`:
`f"GET webapps via API failed, got {response}:{response.text}"`. -/
def list_webapps_fail_msg (rp tx : String) : String :=
  "GET webapps via API failed, got " ++ rp ++ ":" ++ tx

/-- `Webapp.list_webapps`: GET the webapps collection, raise on non-OK,
return the parsed JSON body. -/
def list_webapps {β : Type} (r : Response β) : Except ApiError β :=
  if !r.ok then .error (.pythonAnywhereApiException (list_webapps_fail_msg r.repr r.text))
  else
    match r.jsonBody with
    | none => .error .jsonDecodeError
    | some b => .ok b

/-- Error message of `Webapp.delete`. -/
def delete_fail_msg (domain rp tx : String) : String :=
  "DELETE webapp for " ++ domain ++ " via API failed, got " ++ rp ++ ":" ++ tx

/-- `Webapp.delete`: DELETE the webapp's own resource; raises unless the
status code is exactly 204 (`if response.status_code != 204`). -/
def delete {β : Type} (domain : String) (r : Response β) : Except ApiError Unit :=
  if r.status_code ≠ 204 then
    .error (.pythonAnywhereApiException (delete_fail_msg domain r.repr r.text))
  else .ok ()

/-- Error message of `Webapp.get_ssl_info`. -/
def get_ssl_info_fail_msg (rp tx : String) : String :=
  "GET SSL details via API failed, got " ++ rp ++ ":" ++ tx

/-- The dictionary update `result["not_after"] = parse(result["not_after"])`
performed by `get_ssl_info`, where `raw` is the looked-up raw string: every
`"not_after"` field becomes the parsed value, every other field keeps its raw
string value (keys of a Python dict are unique, so exactly one entry is
replaced). -/
def ssl_update {D : Type} (parse : String → D) (raw : String)
    (kvs : List (String × String)) : List (String × (String ⊕ D)) :=
  kvs.map (fun kv => if kv.1 = "not_after" then (kv.1, Sum.inr (parse raw)) else (kv.1, Sum.inl kv.2))

/-- `Webapp.get_ssl_info`: GET the SSL sub-resource, raise on non-OK, then
replace the `"not_after"` field of the parsed body by `parse` (the external
`dateutil.parser.parse` collaborator) applied to its raw string.  A non-JSON
body raises `JSONDecodeError`; a body without `"not_after"` raises
`KeyError`. -/
def get_ssl_info {D : Type} (parse : String → D)
    (r : Response (List (String × String))) : Except ApiError (List (String × (String ⊕ D))) :=
  if !r.ok then .error (.pythonAnywhereApiException (get_ssl_info_fail_msg r.repr r.text))
  else
    match r.jsonBody with
    | none => .error .jsonDecodeError
    | some result =>
      match result.lookup "not_after" with
      | none => .error (.keyError "not_after")
      | some raw => .ok (ssl_update parse raw result)

/-- Error message of `Webapp.set_ssl`: the dedented multi-line f-string of
the source (20-space indented template lines). -/
def set_ssl_fail_msg (domain rp tx : String) : String :=
  py_dedent ("\n                    POST to set SSL details via API failed, got " ++ rp ++ ":" ++ tx
    ++ "\n                    If you just created an API token, you need to set the API_TOKEN environment variable or start a"
    ++ "\n                    new console.  Also you need to have setup a `" ++ domain
    ++ "` PythonAnywhere webapp for this to work.\n                    ")

/-- `Webapp.set_ssl`: POST certificate and key to the SSL sub-resource; raise
the API exception (with the dedented guidance message) on non-OK. -/
def set_ssl {β : Type} (domain : String) (r : Response β) : Except ApiError Unit :=
  if !r.ok then .error (.pythonAnywhereApiException (set_ssl_fail_msg domain r.repr r.text))
  else .ok ()

/-- Error message of the POST step of `Webapp.create`. -/
def create_post_fail_msg (rp tx : String) : String :=
  "POST to create webapp via API failed, got " ++ rp ++ ":" ++ tx

/-- Error message of the PATCH step of `Webapp.create` (note the missing
space: the source concatenates `"...failed,"` and `f"got {response}..."`). -/
def create_patch_fail_msg (rp tx : String) : String :=
  "PATCH to set virtualenv path and source directory via API failed,got " ++ rp ++ ":" ++ tx

/-- `Webapp.create`: when `nuke` is set, first DELETE the webapp resource —
the response `_delete_response` is never looked at.  Then POST to the
collection URL; the API exception is raised when the response is not OK, or
(short-circuit `or`) when the parsed body's `"status"` field equals
`"ERROR"` (`response.json()` raising `JSONDecodeError` on an OK non-JSON
body).  If the POST step passes, PATCH virtualenv path and source directory,
raising exactly when that response is not OK.  The list of issued
`(method, url)` requests is returned alongside the outcome. -/
def create {α γ : Type} (webapps_url domain : String) (nuke : Bool)
    (_delete_response : Response α)
    (post_response : Response (List (String × String)))
    (patch_response : Response γ) : List (String × String) × Except ApiError Unit :=
  let du := domain_url webapps_url domain
  let pre := if nuke then [("delete", du)] else []
  let posted := pre ++ [("post", webapps_url)]
  if !post_response.ok then
    (posted, .error (.pythonAnywhereApiException (create_post_fail_msg post_response.repr post_response.text)))
  else
    match post_response.jsonBody with
    | none => (posted, .error .jsonDecodeError)
    | some kvs =>
      if kvs.lookup "status" = some "ERROR" then
        (posted, .error (.pythonAnywhereApiException (create_post_fail_msg post_response.repr post_response.text)))
      else
        let patched := posted ++ [("patch", du)]
        if !patch_response.ok then
          (patched, .error (.pythonAnywhereApiException (create_patch_fail_msg patch_response.repr patch_response.text)))
        else (patched, .ok ())

/-- `Webapp.create_static_file_mapping`: POST the mapping to the
`static_files/` sub-resource and return — the response is never inspected,
so no error is ever raised here. -/
def create_static_file_mapping {β : Type} (webapps_url domain : String)
    (_url_path _directory_path : String) (_r : Response β) :
    (String × String) × Except ApiError Unit :=
  (("post", domain_url webapps_url domain ++ "static_files/"), .ok ())

end Webapp

/-- Discriminator: did a computation raise `PythonAnywhereApiException`
(as opposed to succeeding or raising a builtin Python exception)? -/
def is_api_exception {α : Type} : Except ApiError α → Bool
  | .error (.pythonAnywhereApiException _) => true
  | _ => false

/-! Generic lemmas about the string model. -/

theorem str_data_append (a b : String) : (a ++ b).data = a.data ++ b.data := by
  cases a; cases b; rfl

theorem str_of_data (a : String) : String.mk a.data = a := by
  cases a; rfl

theorem str_ext {a b : String} (h : a.data = b.data) : a = b := by
  cases a; cases b; exact congrArg String.mk h

theorem str_append_empty (a : String) : a ++ "" = a := by
  apply str_ext
  rw [str_data_append]
  exact List.append_nil a.data

theorem isPrefixOf_self_append (l t : List Char) : l.isPrefixOf (l ++ t) = true := by
  induction l with
  | nil => simp
  | cons c cs ih => simp [List.isPrefixOf, ih]

theorem py_startswith_append (a b : String) : py_startswith (a ++ b) a = true := by
  unfold py_startswith
  rw [str_data_append]
  exact isPrefixOf_self_append a.data b.data

theorem py_drop_append (a b : String) : py_drop (a ++ b) (py_len a) = b := by
  unfold py_drop py_len
  rw [str_data_append, List.drop_left]

theorem lookup_ssl_update_hit {D : Type} (parse : String → D) (raw : String)
    (kvs : List (String × String)) (h : kvs.lookup "not_after" = some raw) :
    (Webapp.ssl_update parse raw kvs).lookup "not_after" = some (Sum.inr (parse raw)) := by
  induction kvs with
  | nil => simp at h
  | cons kv rest ih =>
    obtain ⟨a, b⟩ := kv
    by_cases ha : a = "not_after"
    · subst ha
      have hd : Webapp.ssl_update parse raw (("not_after", b) :: rest)
          = ("not_after", Sum.inr (parse raw)) :: Webapp.ssl_update parse raw rest := by
        simp [Webapp.ssl_update]
      rw [hd]
      exact List.lookup_cons_self
    · have h2 : ("not_after" == a) = false := beq_eq_false_iff_ne.mpr (Ne.symm ha)
      have hd : Webapp.ssl_update parse raw ((a, b) :: rest)
          = (a, Sum.inl b) :: Webapp.ssl_update parse raw rest := by
        simp [Webapp.ssl_update, ha]
      have h' : rest.lookup "not_after" = some raw := by
        rw [List.lookup_cons] at h
        simpa [h2] using h
      rw [hd, List.lookup_cons]
      simpa [h2] using ih h'

theorem lookup_ssl_update_miss {D : Type} (parse : String → D) (raw : String)
    (kvs : List (String × String)) (k : String) (h : k ≠ "not_after") :
    (Webapp.ssl_update parse raw kvs).lookup k = (kvs.lookup k).map Sum.inl := by
  induction kvs with
  | nil => simp [Webapp.ssl_update]
  | cons kv rest ih =>
    obtain ⟨a, b⟩ := kv
    by_cases ha : a = "not_after"
    · subst ha
      have h2 : (k == "not_after") = false := beq_eq_false_iff_ne.mpr h
      have hd : Webapp.ssl_update parse raw (("not_after", b) :: rest)
          = ("not_after", Sum.inr (parse raw)) :: Webapp.ssl_update parse raw rest := by
        simp [Webapp.ssl_update]
      rw [hd, List.lookup_cons, List.lookup_cons]
      simpa [h2] using ih
    · have hd : Webapp.ssl_update parse raw ((a, b) :: rest)
          = (a, Sum.inl b) :: Webapp.ssl_update parse raw rest := by
        simp [Webapp.ssl_update, ha]
      rw [hd, List.lookup_cons, List.lookup_cons]
      by_cases hk : k = a
      · subst hk
        simp
      · have h3 : (k == a) = false := beq_eq_false_iff_ne.mpr hk
        simpa [h3] using ih

theorem infix_of_append_mid (a b c : String) : List.IsInfix b.data (a ++ b ++ c).data := by
  refine ⟨a.data, c.data, ?_⟩
  simp [str_data_append]

theorem infix_of_append_end (a b : String) : List.IsInfix b.data (a ++ b).data := by
  refine ⟨a.data, [], ?_⟩
  simp [str_data_append]

theorem msg_parts_infix (a rp tx : String) :
    List.IsInfix rp.data (a ++ rp ++ ":" ++ tx).data ∧
    List.IsInfix tx.data (a ++ rp ++ ":" ++ tx).data := by
  constructor
  · have e : a ++ rp ++ ":" ++ tx = a ++ rp ++ (":" ++ tx) := by
      apply str_ext
      simp [str_data_append]
    rw [e]
    exact infix_of_append_mid a rp (":" ++ tx)
  · exact infix_of_append_end (a ++ rp ++ ":") tx

/-! Claim theorems. -/

/-- C5 (confirmed): `delete_log` targets
`<files_base>path/var/log/<domain>.<log_type>.log<suffix>/` where the suffix
is empty for index 0, `.1` for index 1, and `.N.gz` for every index N ≥ 2. -/
theorem C5_delete_log_url_suffixes (fu d lt : String) (n : Int) (h : 2 ≤ n) :
    Webapp.delete_log_url fu d lt 0 = fu ++ "path/var/log/" ++ d ++ "." ++ lt ++ ".log" ++ "/" ∧
    Webapp.delete_log_url fu d lt 1 = fu ++ "path/var/log/" ++ d ++ "." ++ lt ++ ".log" ++ ".1" ++ "/" ∧
    Webapp.delete_log_url fu d lt n
      = fu ++ "path/var/log/" ++ d ++ "." ++ lt ++ ".log" ++ ("." ++ toString n ++ ".gz") ++ "/" := by
  have h1 : ¬ (n = 1) := by omega
  have h2 : n > 1 := by omega
  refine ⟨?_, rfl, ?_⟩
  · show fu ++ "path/var/log/" ++ d ++ "." ++ lt ++ ".log" ++ Webapp.delete_log_suffix 0 ++ "/" = _
    rw [show Webapp.delete_log_suffix 0 = "" from rfl, str_append_empty]
  · show fu ++ "path/var/log/" ++ d ++ "." ++ lt ++ ".log" ++ Webapp.delete_log_suffix n ++ "/" = _
    rw [show Webapp.delete_log_suffix n = "." ++ toString n ++ ".gz" from by
      unfold Webapp.delete_log_suffix
      rw [if_neg h1, if_pos h2]]

/-- C5 witness: the concrete targets for index 2 and index 0. -/
theorem C5_delete_log_url_suffixes_witness :
    Webapp.delete_log_url "https://files/" "www.dom.com" "error" 2
      = "https://files/path/var/log/www.dom.com.error.log.2.gz/" ∧
    Webapp.delete_log_url "https://files/" "www.dom.com" "error" 0
      = "https://files/path/var/log/www.dom.com.error.log/" := by
  have h := C5_delete_log_url_suffixes "https://files/" "www.dom.com" "error" 2 (by decide)
  exact ⟨h.2.2.trans (by decide), h.1.trans (by decide)⟩

/-- C10 (confirmed): for every index strictly below 0, `delete_log` computes
the empty suffix and so targets the same path as index 0, the current
`<domain>.<log_type>.log/` file. -/
theorem C10_delete_log_negative_index (fu d lt : String) (n : Int) (h : n < 0) :
    Webapp.delete_log_url fu d lt n = Webapp.delete_log_url fu d lt 0 ∧
    Webapp.delete_log_url fu d lt n = fu ++ "path/var/log/" ++ d ++ "." ++ lt ++ ".log" ++ "/" := by
  have hs : Webapp.delete_log_suffix n = "" := by
    unfold Webapp.delete_log_suffix
    rw [if_neg (by omega : ¬ (n = 1)), if_neg (by omega : ¬ (n > 1))]
  constructor
  · unfold Webapp.delete_log_url
    rw [hs, show Webapp.delete_log_suffix 0 = "" from rfl]
  · unfold Webapp.delete_log_url
    rw [hs, str_append_empty]

/-- C10 witness: index -1 deletes the current error log file. -/
theorem C10_delete_log_negative_index_witness :
    Webapp.delete_log_url "https://files/" "dom" "error" (-1)
      = "https://files/path/var/log/dom.error.log/" := by
  have h := C10_delete_log_negative_index "https://files/" "dom" "error" (-1) (by decide)
  exact h.2.trans (by decide)

/-- C6 (confirmed): `delete` succeeds exactly when the response status code
is 204; in particular a 200 response with empty body (and `ok = true`)
raises the API exception. -/
theorem C6_delete_requires_204 {β : Type} (domain : String) (r : Response β) :
    (Webapp.delete domain r = .ok () ↔ r.status_code = 204) ∧
    (∀ rp : String, Webapp.delete domain
        { ok := true, status_code := 200, repr := rp, text := "", jsonBody := (none : Option β) }
      = .error (.pythonAnywhereApiException (Webapp.delete_fail_msg domain rp ""))) := by
  constructor
  · by_cases h : r.status_code = 204
    · simp [Webapp.delete, h]
    · simp [Webapp.delete, h]
  · intro rp
    rfl

/-- C9 (confirmed): `create_static_file_mapping` issues a single POST to the
webapp's `static_files/` sub-resource and never inspects the response: for
every response, including non-OK ones, it returns without raising. -/
theorem C9_create_static_file_mapping_fire_and_forget {β : Type}
    (webapps_url domain url_path directory_path : String) (r : Response β) :
    Webapp.create_static_file_mapping webapps_url domain url_path directory_path r
      = (("post", Webapp.domain_url webapps_url domain ++ "static_files/"), .ok ()) := rfl

/-- C2 counterexample: a 409 response with `ok = false` whose JSON body is
the empty object is not the cname case, yet `reload` raises `KeyError`
(from `response.json()["error"]`), not `PythonAnywhereApiException`. -/
theorem C2_reload_keyerror_counterexample :
    Webapp.reload ⟨false, 409, "<Response [409]>", "\x7b\x7d", some []⟩ = .error (.keyError "error") ∧
    is_api_exception (Webapp.reload ⟨false, 409, "<Response [409]>", "\x7b\x7d", some []⟩) = false := ⟨rfl, rfl⟩

/-- C2 (corrected): on a non-OK response, `reload` prints the cname warning
and returns for a 409 whose JSON body maps `"error"` to `"cname_error"`;
it raises the generic API exception for every non-409 status and for a 409
whose body has an `"error"` value other than `"cname_error"`; but a 409
whose body is not JSON raises `JSONDecodeError` and a 409 whose JSON body
lacks the `"error"` key raises `KeyError` instead of the API exception. -/
theorem C2_reload_amended (r : Response (List (String × String))) (h : r.ok = false) :
    (r.status_code = 409 → r.jsonBody.bind (List.lookup "error") = some "cname_error" →
       Webapp.reload r = .ok .cname_warning_printed) ∧
    (r.status_code ≠ 409 →
       Webapp.reload r = .error (.pythonAnywhereApiException (Webapp.reload_fail_msg r.repr r.text))) ∧
    (∀ kvs v, r.status_code = 409 → r.jsonBody = some kvs → kvs.lookup "error" = some v →
       v ≠ "cname_error" →
       Webapp.reload r = .error (.pythonAnywhereApiException (Webapp.reload_fail_msg r.repr r.text))) ∧
    (r.status_code = 409 → r.jsonBody = none → Webapp.reload r = .error .jsonDecodeError) ∧
    (∀ kvs, r.status_code = 409 → r.jsonBody = some kvs → kvs.lookup "error" = none →
       Webapp.reload r = .error (.keyError "error")) := by
  refine ⟨?_, ?_, ?_, ?_, ?_⟩
  · intro h409 hcname
    cases hjb : r.jsonBody with
    | none => rw [hjb] at hcname; simp at hcname
    | some kvs =>
      rw [hjb] at hcname
      simp at hcname
      simp [Webapp.reload, h, h409, hjb, hcname]
  · intro h409
    simp [Webapp.reload, h, h409]
  · intro kvs v h409 hjb hlk hv
    simp [Webapp.reload, h, h409, hjb, hlk, hv]
  · intro h409 hjb
    simp [Webapp.reload, h, h409, hjb]
  · intro kvs h409 hjb hlk
    simp [Webapp.reload, h, h409, hjb, hlk]

/-- C2 witness: the cname case at a concrete 409 response. -/
theorem C2_reload_amended_witness :
    Webapp.reload ⟨false, 409, "<Response [409]>", "e", some [("error", "cname_error")]⟩ = .ok .cname_warning_printed :=
  (C2_reload_amended _ rfl).1 rfl rfl

/-- C1 counterexample: with domain `mydomain`, the listing entry named
`mydomain.access.log` does start with `mydomain.`, yet `get_log_info`
excludes it (its filter prefix is `/var/log/mydomain.`), so nothing is
recorded under "access". -/
theorem C1_get_log_info_prefix_counterexample :
    py_startswith "mydomain.access.log" "mydomain." = true ∧
    Webapp.get_log_info "mydomain" ⟨true, 200, "<Response [200]>", "[]", some [.str "mydomain.access.log"]⟩
      = .ok { access := [], error := [], server := [] } := ⟨rfl, rfl⟩

/-- C1 (corrected): `get_log_info` includes exactly the listing entries that
start with `/var/log/<domain>.`: any string entry without that prefix (and
any non-string entry) is excluded regardless of content, and the entry named
`/var/log/<domain>.access.log` is recorded under category "access" with
index 0. -/
theorem C1_get_log_info_log_dir_filter (domain s rp tx : String)
    (h : py_startswith s (Webapp.log_pre domain) = false) :
    Webapp.get_log_info domain ⟨true, 200, rp, tx, some [.str s, .nonStr]⟩
      = .ok { access := [], error := [], server := [] } ∧
    Webapp.get_log_info domain ⟨true, 200, rp, tx, some [.str (Webapp.log_pre domain ++ "access.log")]⟩
      = .ok { access := [0], error := [], server := [] } := by
  constructor
  · simp [Webapp.get_log_info, Webapp.get_log_info_loop, Webapp.log_entry, h]
  · have h1 := py_startswith_append (Webapp.log_pre domain) "access.log"
    have h2 := py_drop_append (Webapp.log_pre domain) "access.log"
    have he : Webapp.log_entry domain (.str (Webapp.log_pre domain ++ "access.log"))
        = .ok (some ("access", 0)) := by
      simp [Webapp.log_entry, h1, h2]
      rfl
    simp [Webapp.get_log_info, Webapp.get_log_info_loop, he, Webapp.Logs.push]

/-- C1 witness: a concrete domain and excluded entry. -/
theorem C1_get_log_info_log_dir_filter_witness :
    Webapp.get_log_info "dom.com" ⟨true, 200, "R", "T", some [.str "unrelated.txt", .nonStr]⟩
      = .ok { access := [], error := [], server := [] } ∧
    Webapp.get_log_info "dom.com" ⟨true, 200, "R", "T", some [.str "/var/log/dom.com.access.log"]⟩
      = .ok { access := [0], error := [], server := [] } :=
  C1_get_log_info_log_dir_filter "dom.com" "unrelated.txt" "R" "T" rfl

/-- C4 (confirmed): for an entry carrying the `/var/log/<domain>.` prefix,
`get_log_info`'s loop body skips it when its first dot-component is not a
known category; for a known category the final dot-component fixes the
index — `log` gives 0, `1` gives 1, `gz` gives the integer parsed from the
second-to-last component — and any other final component is silently
skipped without raising. -/
theorem C4_log_entry_classification (domain rest : String) :
    (Webapp.log_types.contains ((py_split_dot rest).getD 0 "") = false →
       Webapp.log_entry domain (.str (Webapp.log_pre domain ++ rest)) = .ok none) ∧
    (Webapp.log_types.contains ((py_split_dot rest).getD 0 "") = true →
       ((py_split_dot rest).getLastD "" = "log" →
          Webapp.log_entry domain (.str (Webapp.log_pre domain ++ rest))
            = .ok (some ((py_split_dot rest).getD 0 "", 0))) ∧
       ((py_split_dot rest).getLastD "" = "1" →
          Webapp.log_entry domain (.str (Webapp.log_pre domain ++ rest))
            = .ok (some ((py_split_dot rest).getD 0 "", 1))) ∧
       (∀ n : Int, (py_split_dot rest).getLastD "" = "gz" →
          pyInt ((py_split_dot rest).reverse.getD 1 "") = some n →
          Webapp.log_entry domain (.str (Webapp.log_pre domain ++ rest))
            = .ok (some ((py_split_dot rest).getD 0 "", n))) ∧
       ((py_split_dot rest).getLastD "" ≠ "log" → (py_split_dot rest).getLastD "" ≠ "1" →
          (py_split_dot rest).getLastD "" ≠ "gz" →
          Webapp.log_entry domain (.str (Webapp.log_pre domain ++ rest)) = .ok none)) := by
  have h1 := py_startswith_append (Webapp.log_pre domain) rest
  have h2 := py_drop_append (Webapp.log_pre domain) rest
  constructor
  · intro hc
    simp at hc
    simp [Webapp.log_entry, h1, h2, hc]
  · intro hc
    simp at hc
    refine ⟨?_, ?_, ?_, ?_⟩
    · intro hlast
      simp at hlast
      simp [Webapp.log_entry, h1, h2, hc, hlast]
    · intro hlast
      simp at hlast
      simp [Webapp.log_entry, h1, h2, hc, hlast]
    · intro n hlast hparse
      simp at hlast hparse
      simp [Webapp.log_entry, h1, h2, hc, hlast, hparse]
    · intro hl1 hl2 hl3
      simp at hl1 hl2 hl3
      simp [Webapp.log_entry, h1, h2, hc, hl1, hl2, hl3]

/-- C4 witness: the three suffix conventions and a skipped entry at a
concrete domain. -/
theorem C4_log_entry_classification_witness :
    Webapp.log_entry "d" (.str "/var/log/d.server.3.gz") = .ok (some ("server", 3)) ∧
    Webapp.log_entry "d" (.str "/var/log/d.error.1") = .ok (some ("error", 1)) ∧
    Webapp.log_entry "d" (.str "/var/log/d.access.log") = .ok (some ("access", 0)) ∧
    Webapp.log_entry "d" (.str "/var/log/d.access.weird") = .ok none ∧
    Webapp.log_entry "d" (.str "/var/log/d.foo.log") = .ok none := by
  refine ⟨?_, ?_, ?_, ?_, ?_⟩
  · exact ((C4_log_entry_classification "d" "server.3.gz").2 rfl).2.2.1 3 rfl rfl
  · exact ((C4_log_entry_classification "d" "error.1").2 rfl).2.1 rfl
  · exact ((C4_log_entry_classification "d" "access.log").2 rfl).1 rfl
  · exact ((C4_log_entry_classification "d" "access.weird").2 rfl).2.2.2 (by decide) (by decide) (by decide)
  · exact (C4_log_entry_classification "d" "foo.log").1 rfl

/-- C3 counterexample: `list_webapps` raises on a non-OK response, but its
message (`"GET webapps via API failed, got {response}:{response.text}"`)
does not contain the request URL (the webapps collection endpoint) as a
substring. -/
theorem C3_error_message_url_counterexample :
    Webapp.list_webapps (β := List (String × String)) ⟨false, 500, "<Response [500]>", "boom", none⟩
      = .error (.pythonAnywhereApiException "GET webapps via API failed, got <Response [500]>:boom") ∧
    ¬ List.IsInfix "https://www.pythonanywhere.com/api/v0/user/u/webapps/".data
        "GET webapps via API failed, got <Response [500]>:boom".data := by
  refine ⟨rfl, ?_⟩
  decide

/-- C3 (corrected): every API-error message of the raising operations
contains the raw response representation and the response body text
verbatim, but only `get_cpu_usage`'s message also contains the request URL;
the webapp operations' messages identify the operation (and sometimes the
domain) without the URL. -/
theorem C3_error_messages_amended (url dn rp tx : String) :
    (List.IsInfix url.data (CPU.get_cpu_usage_fail_msg url rp tx).data ∧
     List.IsInfix rp.data (CPU.get_cpu_usage_fail_msg url rp tx).data ∧
     List.IsInfix tx.data (CPU.get_cpu_usage_fail_msg url rp tx).data) ∧
    (List.IsInfix rp.data (Webapp.get_fail_msg dn rp tx).data ∧
     List.IsInfix tx.data (Webapp.get_fail_msg dn rp tx).data) ∧
    (List.IsInfix rp.data (Webapp.patch_fail_msg dn rp tx).data ∧
     List.IsInfix tx.data (Webapp.patch_fail_msg dn rp tx).data) ∧
    (List.IsInfix rp.data (Webapp.list_webapps_fail_msg rp tx).data ∧
     List.IsInfix tx.data (Webapp.list_webapps_fail_msg rp tx).data) ∧
    (List.IsInfix rp.data (Webapp.get_ssl_info_fail_msg rp tx).data ∧
     List.IsInfix tx.data (Webapp.get_ssl_info_fail_msg rp tx).data) ∧
    (List.IsInfix rp.data (Webapp.delete_log_fail_msg rp tx).data ∧
     List.IsInfix tx.data (Webapp.delete_log_fail_msg rp tx).data) ∧
    (List.IsInfix rp.data (Webapp.delete_fail_msg dn rp tx).data ∧
     List.IsInfix tx.data (Webapp.delete_fail_msg dn rp tx).data) ∧
    (List.IsInfix rp.data (Webapp.reload_fail_msg rp tx).data ∧
     List.IsInfix tx.data (Webapp.reload_fail_msg rp tx).data) ∧
    (List.IsInfix rp.data (Webapp.get_log_info_fail_msg rp tx).data ∧
     List.IsInfix tx.data (Webapp.get_log_info_fail_msg rp tx).data) ∧
    (List.IsInfix rp.data (Webapp.create_post_fail_msg rp tx).data ∧
     List.IsInfix tx.data (Webapp.create_post_fail_msg rp tx).data) ∧
    (List.IsInfix rp.data (Webapp.create_patch_fail_msg rp tx).data ∧
     List.IsInfix tx.data (Webapp.create_patch_fail_msg rp tx).data) := by
  refine ⟨⟨?_, ?_⟩, msg_parts_infix _ rp tx, msg_parts_infix _ rp tx, msg_parts_infix _ rp tx,
    msg_parts_infix _ rp tx, msg_parts_infix _ rp tx, msg_parts_infix _ rp tx,
    msg_parts_infix _ rp tx, msg_parts_infix _ rp tx, msg_parts_infix _ rp tx,
    msg_parts_infix _ rp tx⟩
  · have e : CPU.get_cpu_usage_fail_msg url rp tx
        = "GET to " ++ url ++ (" failed, got " ++ rp ++ ":" ++ tx) := by
      apply str_ext
      simp [CPU.get_cpu_usage_fail_msg, str_data_append]
    rw [e]
    exact infix_of_append_mid "GET to " url (" failed, got " ++ rp ++ ":" ++ tx)
  · exact msg_parts_infix ("GET to " ++ url ++ " failed, got ") rp tx

/-- C7 (confirmed): with `nuke` set, `create` first issues a DELETE whose
response is never inspected; the POST step raises the API exception exactly
when the response is not OK or its JSON body's `"status"` field is
`"ERROR"` (an OK non-JSON body raises `JSONDecodeError` instead); once the
POST step passes, the PATCH of virtualenv path and source directory raises
exactly when the PATCH response is not OK. -/
theorem C7_create_nuke_and_checks {α γ : Type} (webapps_url domain : String)
    (d d' : Response α) (p : Response (List (String × String))) (q : Response γ) :
    (Webapp.create webapps_url domain true d p q = Webapp.create webapps_url domain true d' p q) ∧
    ((Webapp.create webapps_url domain true d p q).1.take 1
       = [("delete", Webapp.domain_url webapps_url domain)]) ∧
    (p.ok = false → (Webapp.create webapps_url domain true d p q).2
       = .error (.pythonAnywhereApiException (Webapp.create_post_fail_msg p.repr p.text))) ∧
    (∀ kvs, p.ok = true → p.jsonBody = some kvs → kvs.lookup "status" = some "ERROR" →
       (Webapp.create webapps_url domain true d p q).2
         = .error (.pythonAnywhereApiException (Webapp.create_post_fail_msg p.repr p.text))) ∧
    (p.ok = true → p.jsonBody = none →
       (Webapp.create webapps_url domain true d p q).2 = .error .jsonDecodeError) ∧
    (∀ kvs, p.ok = true → p.jsonBody = some kvs → kvs.lookup "status" ≠ some "ERROR" →
       (Webapp.create webapps_url domain true d p q).2
         = if q.ok then .ok ()
           else .error (.pythonAnywhereApiException (Webapp.create_patch_fail_msg q.repr q.text))) := by
  refine ⟨rfl, ?_, ?_, ?_, ?_, ?_⟩
  · cases hok : p.ok with
    | false => simp [Webapp.create, hok]
    | true =>
      cases hjb : p.jsonBody with
      | none => simp [Webapp.create, hok, hjb]
      | some kvs =>
        by_cases hst : kvs.lookup "status" = some "ERROR"
        · simp [Webapp.create, hok, hjb, hst]
        · cases hq : q.ok with
          | false => simp [Webapp.create, hok, hjb, hst, hq]
          | true => simp [Webapp.create, hok, hjb, hst, hq]
  · intro hok
    simp [Webapp.create, hok]
  · intro kvs hok hjb hst
    simp [Webapp.create, hok, hjb, hst]
  · intro hok hjb
    simp [Webapp.create, hok, hjb]
  · intro kvs hok hjb hst
    cases hq : q.ok with
    | false => simp [Webapp.create, hok, hjb, hst, hq]
    | true => simp [Webapp.create, hok, hjb, hst, hq]

/-- C7 witness: a concrete run where the ignored DELETE failed, the POST
returned OK with a non-ERROR status, and the PATCH returned OK. -/
theorem C7_create_nuke_and_checks_witness :
    (Webapp.create "https://wa/" "dom" true
      (⟨false, 500, "DR", "DT", (none : Option Unit)⟩ : Response Unit)
      ⟨true, 200, "PR", "PT", some [("status", "OK")]⟩
      (⟨true, 200, "QR", "QT", (none : Option Unit)⟩ : Response Unit)).2 = .ok () := by
  have h := (C7_create_nuke_and_checks "https://wa/" "dom"
      (⟨false, 500, "DR", "DT", (none : Option Unit)⟩ : Response Unit)
      (⟨true, 204, "DR2", "DT2", (none : Option Unit)⟩ : Response Unit)
      ⟨true, 200, "PR", "PT", some [("status", "OK")]⟩
      (⟨true, 200, "QR", "QT", (none : Option Unit)⟩ : Response Unit)).2.2.2.2.2
    [("status", "OK")] rfl rfl (by decide)
  exact h

/-- C8 (confirmed): on an OK response whose JSON body has a raw
`"not_after"` string, `get_ssl_info` returns the body with that field
replaced by the parsed date value and every other field unmodified
(`parse` stands for the external `dateutil.parser.parse`). -/
theorem C8_get_ssl_info_parses_not_after {D : Type} (parse : String → D)
    (r : Response (List (String × String))) (kvs : List (String × String)) (raw : String)
    (hok : r.ok = true) (hjb : r.jsonBody = some kvs) (hlk : kvs.lookup "not_after" = some raw) :
    Webapp.get_ssl_info parse r = .ok (Webapp.ssl_update parse raw kvs) ∧
    (Webapp.ssl_update parse raw kvs).lookup "not_after" = some (Sum.inr (parse raw)) ∧
    (∀ k, k ≠ "not_after" →
       (Webapp.ssl_update parse raw kvs).lookup k = (kvs.lookup k).map Sum.inl) := by
  refine ⟨?_, lookup_ssl_update_hit parse raw kvs hlk,
    fun k hk => lookup_ssl_update_miss parse raw kvs k hk⟩
  simp [Webapp.get_ssl_info, hok, hjb, hlk]

/-- C8 witness: a concrete body with `parse` instantiated to
`String.length`. -/
theorem C8_get_ssl_info_parses_not_after_witness :
    Webapp.get_ssl_info String.length
        ⟨true, 200, "R", "T", some [("not_after", "Wed 29 May 2019"), ("issuer", "acme")]⟩
      = .ok [("not_after", Sum.inr 15), ("issuer", Sum.inl "acme")] := by
  have h := C8_get_ssl_info_parses_not_after String.length
    ⟨true, 200, "R", "T", some [("not_after", "Wed 29 May 2019"), ("issuer", "acme")]⟩
    [("not_after", "Wed 29 May 2019"), ("issuer", "acme")] "Wed 29 May 2019" rfl rfl rfl
  exact h.1
